import Mathlib

/-!
Formal model of the raffle-bot payment-to-ticket reconciliation core,
translated from `database.py`, `paystack_handler.py` and `bot.py`.

Modelling choices:
* MongoDB collections become Lean lists of records kept in insertion order;
  the unique index on `pending_payments.reference` surfaces as the duplicate
  check in `add_pending_payment`, and `delete_one` becomes `List.eraseP`
  (delete the first match).
* `random.sample(available, k)` is modelled by an arbitrary sampler function
  together with the predicate `SamplerOK` stating the contract Python
  guarantees: on a duplicate-free input list and `k` at most its length, the
  sample has length `k`, is duplicate-free, and draws only members of the
  input. `takeSampler` is one concrete sampler satisfying the contract.
* Python `str.strip` / `str.lower` are modelled on the character list
  (`pyStrip` / `pyLower`); the placeholder strings involved are ASCII, where
  these agree with Python.
* The paystack HTTP interaction is abstracted as a gateway oracle
  `String → GatewayOutcome` giving, per reference, either an HTTP response
  (status code, truthiness of the top-level `status` field, and the
  transaction `data.status` string) or one of the exception outcomes the
  source catches. Timestamps (`created_at`) affect no claim and are omitted.
* asyncio semantics: handlers run on one cooperative event loop, so code
  between two `await` suspension points executes atomically. In
  `confirm_payment` (bot.py 275-323) the whole verify → lookup → assign →
  remove sequence contains no `await` and is therefore a single atomic
  block; the per-payment body of `check_payments` (bot.py 227-247) only
  reaches an `await` inside its confirmed branch. Interleavings are modelled
  at this block granularity (`runRace`).
-/

/-- User document as upserted by `Database.add_user` (database.py 43-62). -/
structure UserRec where
  user_id : Nat
  username : String
  first_name : String
  last_name : String
deriving DecidableEq

/-- Ticket document as inserted by `Database.assign_tickets`
(database.py 166-177). -/
structure Ticket where
  user_id : Nat
  ticket_number : Nat
  payment_reference : String
deriving DecidableEq

/-- Pending-payment document as inserted by `Database.add_pending_payment`
(database.py 86-102). -/
structure PendingPayment where
  user_id : Nat
  reference : String
  ticket_count : Nat
  amount : Nat
deriving DecidableEq

/-- The three MongoDB collections (database.py 25-27), documents in
insertion order. -/
structure DBState where
  users : List UserRec
  tickets : List Ticket
  pending : List PendingPayment
deriving DecidableEq

/-- `Database.add_user` (database.py 43-62): upsert keyed on `user_id`. -/
def add_user (s : DBState) (uid : Nat) (un fn ln : String) : DBState :=
  if s.users.any (fun u => u.user_id == uid) then
    { s with users := s.users.map (fun u => if u.user_id == uid then ⟨uid, un, fn, ln⟩ else u) }
  else
    { s with users := s.users ++ [⟨uid, un, fn, ln⟩] }

/-- `Database.add_pending_payment` (database.py 86-102). The unique index on
`reference` (database.py 37) makes the insert raise `DuplicateKeyError` when
a record with that reference exists; the handler swallows the error, leaving
the store unchanged. The Bool records whether the insert happened. -/
def add_pending_payment (s : DBState) (uid : Nat) (reference : String)
    (ticket_count amount : Nat) : Bool × DBState :=
  if s.pending.any (fun p => p.reference == reference) then
    (false, s)
  else
    (true, { s with pending := s.pending ++ [⟨uid, reference, ticket_count, amount⟩] })

/-- `Database.get_pending_payments` (database.py 104-114): all pending
documents (projected; the projection drops only `created_at`, which the
model omits anyway). -/
def get_pending_payments (s : DBState) : List PendingPayment :=
  s.pending

/-- `Database.get_pending_payment_by_reference` (database.py 116-136). -/
def get_pending_payment_by_reference (s : DBState) (reference : String) :
    Option PendingPayment :=
  s.pending.find? (fun p => p.reference == reference)

/-- `Database.remove_pending_payment` (database.py 138-147): `delete_one`
removes the first document matching the reference. -/
def remove_pending_payment (s : DBState) (reference : String) : DBState :=
  { s with pending := s.pending.eraseP (fun p => p.reference == reference) }

/-- The allocated ticket numbers (database.py 153-154). -/
def existingNumbers (s : DBState) : List Nat :=
  s.tickets.map Ticket.ticket_number

/-- `list(set(range(1, 1001)) - existing_numbers)` (database.py 157): the
numbers 1..1000 that are not yet allocated. The universe is hard-coded to
1000 in the source, independent of the MAX_TICKETS configuration. -/
def availableNumbers (s : DBState) : List Nat :=
  (List.range' 1 1000).filter (fun n => !(existingNumbers s).contains n)

/-- Contract of Python `random.sample(l, k)`: on a duplicate-free list with
`k ≤ l.length` it returns `k` pairwise-distinct elements of `l`. -/
def SamplerOK (sample : List Nat → Nat → List Nat) : Prop :=
  ∀ l k, l.Nodup → k ≤ l.length →
    (sample l k).length = k ∧ (sample l k).Nodup ∧ ∀ x ∈ sample l k, x ∈ l

/-- A concrete sampler satisfying `SamplerOK`: take the first `k`. -/
def takeSampler : List Nat → Nat → List Nat :=
  fun l k => l.take k

/-- `Database.assign_tickets` (database.py 149-184), parametrised by the
sampler standing in for `random.sample`. Returns `none` and leaves the
store unchanged when fewer numbers are available than requested
(database.py 159-161); otherwise inserts one ticket per drawn number and
returns the drawn numbers. -/
def assign_tickets (sample : List Nat → Nat → List Nat) (s : DBState)
    (user_id ticket_count : Nat) (payment_reference : String) :
    Option (List Nat) × DBState :=
  let available := availableNumbers s
  if available.length < ticket_count then
    (none, s)
  else
    let selected := sample available ticket_count
    let docs := selected.map (fun n => Ticket.mk user_id n payment_reference)
    (some selected, { s with tickets := s.tickets ++ docs })

/-- Python `str.lower`, modelled on the character list (ASCII-faithful). -/
def pyLower (s : String) : String :=
  ⟨s.data.map Char.toLower⟩

/-- Python `str.strip`, modelled on the character list. -/
def pyStrip (s : String) : String :=
  ⟨((s.data.dropWhile Char.isWhitespace).reverse.dropWhile Char.isWhitespace).reverse⟩

/-- Outcome of one verification request to the gateway, covering every case
`PaystackHandler.verify_payment` distinguishes (paystack_handler.py
160-187): an HTTP response carrying the status code, the truthiness of the
top-level `status` field and the `data.status` string, or one of the caught
exception classes (SSL error, other request errors such as timeouts and
connection failures, and an unparseable JSON body, which `response.json()`
raises as a `RequestException` subclass). -/
inductive GatewayOutcome where
  | httpResp (statusCode : Nat) (bodyStatus : Bool) (txStatus : String)
  | sslErr
  | requestErr
  | jsonErr
deriving DecidableEq

/-- The placeholder set of paystack_handler.py 149. -/
def placeholderReferences : List String :=
  ["reference", "<reference>", "ref", ""]

/-- The guard of paystack_handler.py 149: `not reference or
str(reference).strip().lower() in {...}`. -/
def isPlaceholderReference (reference : String) : Bool :=
  reference.data.isEmpty || placeholderReferences.contains (pyLower (pyStrip reference))

/-- `PaystackHandler.verify_payment` (paystack_handler.py 146-187). First
component: the returned Bool. Second component: the list of references for
which an HTTP request to the gateway was issued (empty when the placeholder
guard short-circuits at line 149-151). -/
def verify_payment (gw : String → GatewayOutcome) (reference : String) :
    Bool × List String :=
  if isPlaceholderReference reference then
    (false, [])
  else
    match gw reference with
    | .httpResp statusCode bodyStatus txStatus =>
        if statusCode != 200 then (false, [reference])
        else (bodyStatus && txStatus == "success", [reference])
    | _ => (false, [reference])

/-- `int(os.getenv('MAX_TICKETS', 1000))` (bot.py 29): the configured
maximum ticket supply, defaulting to 1000. -/
def raffleBotMaxTickets (env : Option Nat) : Nat :=
  env.getD 1000

/-- Bot-level state: the database plus the log of ticket notifications the
bot produced (user id together with the full list of drawn numbers shown in
the summary / confirmation message). -/
structure BotState where
  db : DBState
  notes : List (Nat × List Nat)
deriving DecidableEq

/-- Result surfaced to the user by `RaffleBot.confirm_payment`
(bot.py 275-323). -/
inductive ConfirmResult where
  | assigned (numbers : List Nat)
  | assignFailed
  | referenceNotFound
  | notConfirmed
deriving DecidableEq

/-- `RaffleBot.confirm_payment` (bot.py 275-323): verify with the gateway,
look the pending payment up, assign tickets **to the calling user's id**
(line 287 passes the handler argument `user_id`, discarding the stored
`user_id` which line 284 unpacks into `_`), compose the confirmation
message with the drawn numbers and remove the pending payment. The whole
sequence up to and including the removal (line 301) contains no `await`,
so it is one atomic block on the event loop. -/
def confirm_payment (sample : List Nat → Nat → List Nat)
    (gw : String → GatewayOutcome) (st : BotState) (caller_id : Nat)
    (reference : String) : ConfirmResult × BotState :=
  if (verify_payment gw reference).1 then
    match get_pending_payment_by_reference st.db reference with
    | some pending =>
        match assign_tickets sample st.db caller_id pending.ticket_count reference with
        | (some nums, db1) =>
            let db2 := remove_pending_payment db1 reference
            (.assigned nums, ⟨db2, st.notes ++ [(caller_id, nums)]⟩)
        | (none, db1) => (.assignFailed, ⟨db1, st.notes⟩)
    | none => (.referenceNotFound, st)
  else
    (.notConfirmed, st)

/-- One iteration of the `check_payments` loop body (bot.py 227-247).

`get_pending_payments` returns projected dict documents, and the loop
header `user_id, reference, ticket_count, amount = payment` tuple-unpacks
the dict, which in Python binds the four KEY strings in insertion order —
so `reference` is bound to the literal string "reference", not to the
stored value. That string is in the placeholder set, hence
`verify_payment` returns False at its guard without contacting the
gateway, and the body does nothing. Were the guard ever to pass, Python
would call `assign_tickets` with the key strings "user_id" and
"ticket_count"; its `len(available_numbers) < ticket_count` comparison
then raises `TypeError`, the blanket except returns `None`, no ticket is
inserted and no message is sent, and the body falls through to
`remove_pending_payment("reference")` (bot.py 247) — which the branch
below reproduces. -/
def check_payment_step (gw : String → GatewayOutcome) (st : BotState)
    (_payment : PendingPayment) : BotState :=
  if (verify_payment gw "reference").1 then
    ⟨remove_pending_payment st.db "reference", st.notes⟩
  else
    st

/-- `RaffleBot.check_payments` (bot.py 223-247): snapshot the pending
payments, then run the loop body once per document. -/
def check_payments (gw : String → GatewayOutcome) (st : BotState) : BotState :=
  (get_pending_payments st.db).foldl (check_payment_step gw) st

/-- An interleaving of one periodic sweep with one user-initiated confirm,
at the atomicity granularity of the event loop: some of the sweep's
per-payment blocks run, then the confirm's single atomic block, then the
remaining sweep blocks. `pre ++ post` ranges over every possible snapshot
the sweep may be iterating, and the split point over every position of the
confirm between its blocks. -/
def runRace (sample : List Nat → Nat → List Nat) (gw : String → GatewayOutcome)
    (st : BotState) (pre post : List PendingPayment) (caller_id : Nat)
    (reference : String) : ConfirmResult × BotState :=
  let st1 := pre.foldl (check_payment_step gw) st
  let out := confirm_payment sample gw st1 caller_id reference
  (out.1, post.foldl (check_payment_step gw) out.2)

/-- A database-level operation, as quantified over by the store invariant:
user upsert, pending-payment creation and removal, and allocation. -/
inductive DbOp where
  | addUser (uid : Nat) (un fn ln : String)
  | addPending (uid : Nat) (reference : String) (ticket_count amount : Nat)
  | removePending (reference : String)
  | assignTickets (uid ticket_count : Nat) (reference : String)

/-- Interpret one operation on the store. -/
def applyOp (sample : List Nat → Nat → List Nat) (s : DBState) : DbOp → DBState
  | .addUser uid un fn ln => add_user s uid un fn ln
  | .addPending uid reference cnt amt => (add_pending_payment s uid reference cnt amt).2
  | .removePending reference => remove_pending_payment s reference
  | .assignTickets uid cnt reference => (assign_tickets sample s uid cnt reference).2

/-- The empty store a fresh deployment starts from. -/
def dbEmpty : DBState :=
  ⟨[], [], []⟩

/-- Run a sequence of operations from the empty store. -/
def runOps (sample : List Nat → Nat → List Nat) (ops : List DbOp) : DBState :=
  ops.foldl (applyOp sample) dbEmpty

/-- The pending store satisfies its unique-index invariant: references are
pairwise distinct. -/
def pendingRefsUnique (s : DBState) : Prop :=
  (s.pending.map PendingPayment.reference).Nodup

/-- A gateway that confirms every reference definitively. -/
def gwConfirmAll : String → GatewayOutcome :=
  fun _ => .httpResp 200 true "success"

/-- A gateway whose every request fails with a network error. -/
def gwNetworkDown : String → GatewayOutcome :=
  fun _ => .requestErr

theorem takeSampler_ok : SamplerOK takeSampler := by
  intro l k hnd hk
  refine ⟨?_, hnd.sublist (List.take_sublist k l), fun x hx => List.take_subset k l hx⟩
  simp [takeSampler, List.length_take, Nat.min_eq_left hk]

theorem nodup_availableNumbers (s : DBState) : (availableNumbers s).Nodup :=
  (List.nodup_range' 1 1000).filter _

theorem mem_availableNumbers {s : DBState} {x : Nat} :
    x ∈ availableNumbers s ↔ (1 ≤ x ∧ x ≤ 1000) ∧ x ∉ existingNumbers s := by
  simp only [availableNumbers, List.mem_filter, List.mem_range'_1]
  have hc : ((!(existingNumbers s).contains x) = true) ↔ x ∉ existingNumbers s := by
    simp
  rw [hc]
  constructor
  · rintro ⟨⟨h1, h2⟩, h3⟩
    exact ⟨⟨h1, by omega⟩, h3⟩
  · rintro ⟨⟨h1, h2⟩, h3⟩
    exact ⟨⟨h1, by omega⟩, h3⟩

theorem assign_tickets_of_le {sample : List Nat → Nat → List Nat} {s : DBState}
    {uid k : Nat} {ref : String} (h : k ≤ (availableNumbers s).length) :
    assign_tickets sample s uid k ref =
      (some (sample (availableNumbers s) k),
       { s with tickets := s.tickets ++
           (sample (availableNumbers s) k).map (fun n => Ticket.mk uid n ref) }) := by
  simp [assign_tickets, Nat.not_lt.mpr h]

theorem assign_tickets_of_lt {sample : List Nat → Nat → List Nat} {s : DBState}
    {uid k : Nat} {ref : String} (h : (availableNumbers s).length < k) :
    assign_tickets sample s uid k ref = (none, s) := by
  simp [assign_tickets, h]

theorem verify_payment_placeholder {gw : String → GatewayOutcome} {r : String}
    (h : isPlaceholderReference r = true) : verify_payment gw r = (false, []) := by
  unfold verify_payment
  rw [h]
  rfl

theorem placeholder_reference_lit : isPlaceholderReference "reference" = true := by
  decide

theorem check_payment_step_eq (gw : String → GatewayOutcome) (st : BotState)
    (p : PendingPayment) : check_payment_step gw st p = st := by
  unfold check_payment_step
  rw [verify_payment_placeholder placeholder_reference_lit]
  rfl

theorem foldl_check_payment_step (gw : String → GatewayOutcome)
    (l : List PendingPayment) (st : BotState) :
    l.foldl (check_payment_step gw) st = st := by
  induction l generalizing st with
  | nil => rfl
  | cons p t ih => rw [List.foldl_cons, check_payment_step_eq]; exact ih st

theorem check_payments_id (gw : String → GatewayOutcome) (st : BotState) :
    check_payments gw st = st :=
  foldl_check_payment_step gw _ st

theorem runRace_eq (sample : List Nat → Nat → List Nat) (gw : String → GatewayOutcome)
    (st : BotState) (pre post : List PendingPayment) (c : Nat) (r : String) :
    runRace sample gw st pre post c r = confirm_payment sample gw st c r := by
  simp only [runRace, foldl_check_payment_step]

theorem confirm_payment_eq_success (sample : List Nat → Nat → List Nat) (c : Nat)
    {gw : String → GatewayOutcome} {st : BotState} {p : PendingPayment}
    (hv : (verify_payment gw p.reference).1 = true)
    (hfind : get_pending_payment_by_reference st.db p.reference = some p)
    (hle : p.ticket_count ≤ (availableNumbers st.db).length) :
    confirm_payment sample gw st c p.reference =
      (.assigned (sample (availableNumbers st.db) p.ticket_count),
       ⟨⟨st.db.users,
         st.db.tickets ++ (sample (availableNumbers st.db) p.ticket_count).map
           (fun n => Ticket.mk c n p.reference),
         st.db.pending.eraseP (fun q => q.reference == p.reference)⟩,
        st.notes ++ [(c, sample (availableNumbers st.db) p.ticket_count)]⟩) := by
  simp only [confirm_payment, hv, hfind, assign_tickets_of_le hle, if_true,
    remove_pending_payment]

theorem confirm_payment_eq_notFound (sample : List Nat → Nat → List Nat) (c : Nat)
    {gw : String → GatewayOutcome} {st : BotState} {r : String}
    (hv : (verify_payment gw r).1 = true)
    (hfind : get_pending_payment_by_reference st.db r = none) :
    confirm_payment sample gw st c r = (.referenceNotFound, st) := by
  simp only [confirm_payment, hv, hfind, if_true]

theorem confirm_payment_eq_insufficient (sample : List Nat → Nat → List Nat) (c : Nat)
    {gw : String → GatewayOutcome} {st : BotState} {p : PendingPayment}
    (hv : (verify_payment gw p.reference).1 = true)
    (hfind : get_pending_payment_by_reference st.db p.reference = some p)
    (hlt : (availableNumbers st.db).length < p.ticket_count) :
    confirm_payment sample gw st c p.reference = (.assignFailed, st) := by
  simp only [confirm_payment, hv, hfind, assign_tickets_of_lt hlt, if_true]

theorem confirm_payment_eq_notConfirmed (sample : List Nat → Nat → List Nat)
    (st : BotState) (c : Nat) {gw : String → GatewayOutcome} {r : String}
    (hv : (verify_payment gw r).1 = false) :
    confirm_payment sample gw st c r = (.notConfirmed, st) := by
  simp only [confirm_payment, hv, Bool.false_eq_true, if_false]

theorem verify_payment_true_shape {gw : String → GatewayOutcome} {r : String}
    (h : (verify_payment gw r).1 = true) :
    gw r = .httpResp 200 true "success" := by
  unfold verify_payment at h
  split at h
  · simp at h
  · split at h
    · rename_i code b tx heq
      split at h
      · simp at h
      · rename_i hc
        simp at h hc
        obtain ⟨hb, htx⟩ := h
        rw [heq, hc, hb, htx]
    · simp at h

theorem find?_eraseP_refs_none {l : List PendingPayment} {r : String}
    {p : PendingPayment}
    (hu : (l.map PendingPayment.reference).Nodup)
    (hf : l.find? (fun q => q.reference == r) = some p) :
    (l.eraseP (fun q => q.reference == r)).find? (fun q => q.reference == r) = none := by
  induction l with
  | nil => cases hf
  | cons q t ih =>
      rw [List.map_cons, List.nodup_cons] at hu
      obtain ⟨hq, ht⟩ := hu
      cases hqb : (q.reference == r) with
      | true =>
          rw [List.eraseP_cons, hqb]
          simp only [cond_true]
          apply List.find?_eq_none.mpr
          intro x hx hxr
          apply hq
          rw [List.mem_map]
          refine ⟨x, hx, ?_⟩
          rw [beq_iff_eq.mp hxr]
          exact (beq_iff_eq.mp hqb).symm
      | false =>
          rw [List.eraseP_cons, hqb]
          simp only [cond_false]
          rw [List.find?_cons_of_neg _ (by simp [hqb])] at hf
          rw [List.find?_cons_of_neg _ (by simp [hqb])]
          exact ih ht hf

theorem nodup_le_1000 {l : List Nat} (hnd : l.Nodup)
    (hb : ∀ x ∈ l, 1 ≤ x ∧ x ≤ 1000) : l.length ≤ 1000 := by
  have hsub : l ⊆ List.range' 1 1000 := by
    intro x hx
    have := hb x hx
    rw [List.mem_range'_1]
    omega
  have := (hnd.subperm hsub).length_le
  simpa using this

theorem tickets_add_user (s : DBState) (uid : Nat) (un fn ln : String) :
    (add_user s uid un fn ln).tickets = s.tickets := by
  unfold add_user
  split <;> rfl

theorem tickets_add_pending_payment (s : DBState) (uid : Nat) (r : String)
    (cnt amt : Nat) : ((add_pending_payment s uid r cnt amt).2).tickets = s.tickets := by
  unfold add_pending_payment
  split <;> rfl

/-- The two-part ticket-store invariant maintained by every operation. -/
def ticketNumbersOK (s : DBState) : Prop :=
  (∀ x ∈ existingNumbers s, 1 ≤ x ∧ x ≤ 1000) ∧ (existingNumbers s).Nodup

theorem applyOp_preserves {sample : List Nat → Nat → List Nat}
    (hs : SamplerOK sample) {s : DBState} (h : ticketNumbersOK s) (op : DbOp) :
    ticketNumbersOK (applyOp sample s op) := by
  cases op with
  | addUser uid un fn ln =>
      have ht : existingNumbers (applyOp sample s (.addUser uid un fn ln)) = existingNumbers s := by
        simp [applyOp, existingNumbers, tickets_add_user]
      rw [ticketNumbersOK, ht]
      exact h
  | addPending uid r cnt amt =>
      have ht : existingNumbers (applyOp sample s (.addPending uid r cnt amt))
          = existingNumbers s := by
        simp [applyOp, existingNumbers, tickets_add_pending_payment]
      rw [ticketNumbersOK, ht]
      exact h
  | removePending r =>
      have ht : existingNumbers (applyOp sample s (.removePending r)) = existingNumbers s := by
        simp [applyOp, existingNumbers, remove_pending_payment]
      rw [ticketNumbersOK, ht]
      exact h
  | assignTickets uid k r =>
      by_cases hk : (availableNumbers s).length < k
      · have ht : existingNumbers (applyOp sample s (.assignTickets uid k r))
            = existingNumbers s := by
          simp [applyOp, assign_tickets_of_lt hk]
        rw [ticketNumbersOK, ht]
        exact h
      · push_neg at hk
        obtain ⟨hlen, hnd, hmem⟩ := hs _ _ (nodup_availableNumbers s) hk
        have ht : existingNumbers (applyOp sample s (.assignTickets uid k r))
            = existingNumbers s ++ sample (availableNumbers s) k := by
          simp only [applyOp, assign_tickets_of_le hk, existingNumbers, List.map_append,
            List.map_map]
          rw [List.append_cancel_left_eq]
          exact List.map_id _
        rw [ticketNumbersOK, ht]
        obtain ⟨hb, hn⟩ := h
        constructor
        · intro x hx
          rcases List.mem_append.mp hx with hx | hx
          · exact hb x hx
          · exact (mem_availableNumbers.mp (hmem x hx)).1
        · refine hn.append hnd ?_
          intro x hx1 hx2
          exact (mem_availableNumbers.mp (hmem x hx2)).2 hx1

theorem ticketNumbersOK_dbEmpty : ticketNumbersOK dbEmpty := by
  constructor <;> simp [existingNumbers, dbEmpty]

theorem runOps_ticketNumbersOK {sample : List Nat → Nat → List Nat}
    (hs : SamplerOK sample) (ops : List DbOp) :
    ticketNumbersOK (runOps sample ops) := by
  have hgen : ∀ s, ticketNumbersOK s → ticketNumbersOK (ops.foldl (applyOp sample) s) := by
    induction ops with
    | nil => intro s h; exact h
    | cons op t ih =>
        intro s h
        rw [List.foldl_cons]
        exact ih _ (applyOp_preserves hs h op)
  exact hgen dbEmpty ticketNumbersOK_dbEmpty

/-- C1 (amended): for every store state and requested ticket count, if
`assign_tickets` succeeds, it returns exactly `ticket_count` pairwise
distinct ticket numbers, each lying in `[1, 1000]` (the hard-coded
allocation universe, which equals `[1, MAX_TICKETS]` only under the default
configuration `MAX_TICKETS = 1000`), and none of them was already allocated
before the call. -/
theorem C1_assign_tickets_contract (sample : List Nat → Nat → List Nat)
    (hs : SamplerOK sample) (s : DBState) (uid k : Nat) (ref : String)
    (nums : List Nat) (s2 : DBState)
    (h : assign_tickets sample s uid k ref = (some nums, s2)) :
    nums.length = k ∧ nums.Nodup ∧
      ∀ x ∈ nums, (1 ≤ x ∧ x ≤ 1000) ∧ x ∉ existingNumbers s := by
  by_cases hk : (availableNumbers s).length < k
  · rw [assign_tickets_of_lt hk] at h
    simp at h
  · push_neg at hk
    rw [assign_tickets_of_le hk] at h
    have hfst := congrArg Prod.fst h
    simp only [] at hfst
    have hnums : sample (availableNumbers s) k = nums := Option.some.inj hfst
    obtain ⟨hlen, hnd, hmem⟩ := hs _ _ (nodup_availableNumbers s) hk
    subst hnums
    exact ⟨hlen, hnd, fun x hx => mem_availableNumbers.mp (hmem x hx)⟩

set_option maxRecDepth 100000 in
/-- C1 witness: the contract instantiated at the empty store, a request for
two tickets and the take-first sampler. -/
theorem C1_assign_tickets_contract_witness :
    SamplerOK takeSampler ∧
    (([1, 2] : List Nat).length = 2 ∧ ([1, 2] : List Nat).Nodup ∧
      ∀ x ∈ ([1, 2] : List Nat), (1 ≤ x ∧ x ≤ 1000) ∧ x ∉ existingNumbers dbEmpty) :=
  ⟨takeSampler_ok,
    C1_assign_tickets_contract takeSampler takeSampler_ok dbEmpty 7 2 "R1" [1, 2]
      ⟨[], [⟨7, 1, "R1"⟩, ⟨7, 2, "R1"⟩], []⟩ (by rfl)⟩

set_option maxRecDepth 100000 in
/-- C1 counterexample: with the supply configured as `MAX_TICKETS = 3`,
`assign_tickets` still draws from the hard-coded universe 1..1000 and
succeeds with numbers outside `[1, MAX_TICKETS]`. -/
theorem C1_counterexample :
    raffleBotMaxTickets (some 3) = 3 ∧
    (assign_tickets takeSampler dbEmpty 7 4 "R1").1 = some [1, 2, 3, 4] ∧
    ¬ (∀ x ∈ ([1, 2, 3, 4] : List Nat), x ≤ raffleBotMaxTickets (some 3)) :=
  ⟨rfl, by rfl, by decide⟩

/-- C2: for every pending payment whose gateway verification succeeds but
whose allocation fails for insufficient supply, resolving it on the
periodic sweep path and on the user-initiated confirm path allocates no
tickets and leaves the pending store unchanged. (On the sweep path the
whole state is unchanged because the loop body tuple-unpacks the projected
dict into its key strings and therefore verifies the placeholder string
"reference", which the guard rejects; on the confirm path the removal is
guarded by allocation success.) -/
theorem C2_insufficient_supply_leaves_pending (sample : List Nat → Nat → List Nat)
    (gw : String → GatewayOutcome) (st : BotState) (p : PendingPayment) (c : Nat)
    (hv : (verify_payment gw p.reference).1 = true)
    (hfind : get_pending_payment_by_reference st.db p.reference = some p)
    (hlt : (availableNumbers st.db).length < p.ticket_count) :
    check_payments gw st = st ∧
    confirm_payment sample gw st c p.reference = (.assignFailed, st) :=
  ⟨check_payments_id gw st, confirm_payment_eq_insufficient sample c hv hfind hlt⟩

set_option maxRecDepth 100000 in
/-- C2 witness: a confirmed pending payment for 1001 tickets against the
1000-number universe: neither path allocates, the pending record stays. -/
theorem C2_insufficient_supply_leaves_pending_witness :
    check_payments gwConfirmAll ⟨⟨[], [], [⟨7, "R1", 1001, 500⟩]⟩, []⟩
        = ⟨⟨[], [], [⟨7, "R1", 1001, 500⟩]⟩, []⟩ ∧
    confirm_payment takeSampler gwConfirmAll ⟨⟨[], [], [⟨7, "R1", 1001, 500⟩]⟩, []⟩ 7 "R1"
        = (.assignFailed, ⟨⟨[], [], [⟨7, "R1", 1001, 500⟩]⟩, []⟩) :=
  C2_insufficient_supply_leaves_pending takeSampler gwConfirmAll
    ⟨⟨[], [], [⟨7, "R1", 1001, 500⟩]⟩, []⟩ ⟨7, "R1", 1001, 500⟩ 7
    (by decide) (by rfl) (by decide)

/-- C3: for a confirmed reference with its pending payment present (unique
per reference) and enough supply, every interleaving of the periodic sweep
with a user-initiated confirm — at the atomic-block granularity the event
loop provides — produces exactly one allocation of tickets for that
reference and exactly one removal of its pending payment, and a second
resolve attempt (another confirm by any caller, or another sweep) after the
first confirm allocates nothing and changes nothing; the two callers never
both allocate. -/
theorem C3_exactly_one_allocation (sample : List Nat → Nat → List Nat)
    (hs : SamplerOK sample) (gw : String → GatewayOutcome) (st : BotState)
    (p : PendingPayment) (c1 c2 : Nat) (pre post : List PendingPayment)
    (hv : (verify_payment gw p.reference).1 = true)
    (hfind : get_pending_payment_by_reference st.db p.reference = some p)
    (hu : pendingRefsUnique st.db)
    (hle : p.ticket_count ≤ (availableNumbers st.db).length) :
    runRace sample gw st pre post c1 p.reference
        = confirm_payment sample gw st c1 p.reference ∧
    confirm_payment sample gw st c1 p.reference =
      (.assigned (sample (availableNumbers st.db) p.ticket_count),
       ⟨⟨st.db.users,
         st.db.tickets ++ (sample (availableNumbers st.db) p.ticket_count).map
           (fun n => Ticket.mk c1 n p.reference),
         st.db.pending.eraseP (fun q => q.reference == p.reference)⟩,
        st.notes ++ [(c1, sample (availableNumbers st.db) p.ticket_count)]⟩) ∧
    (sample (availableNumbers st.db) p.ticket_count).length = p.ticket_count ∧
    confirm_payment sample gw (confirm_payment sample gw st c1 p.reference).2 c2 p.reference
        = (.referenceNotFound, (confirm_payment sample gw st c1 p.reference).2) ∧
    check_payments gw (confirm_payment sample gw st c1 p.reference).2
        = (confirm_payment sample gw st c1 p.reference).2 := by
  have hsucc := confirm_payment_eq_success sample c1 hv hfind hle
  refine ⟨runRace_eq sample gw st pre post c1 p.reference, hsucc,
    (hs _ _ (nodup_availableNumbers st.db) hle).1, ?_, check_payments_id gw _⟩
  have hnone :
      get_pending_payment_by_reference
        (confirm_payment sample gw st c1 p.reference).2.db p.reference = none := by
    rw [hsucc]
    exact find?_eraseP_refs_none hu hfind
  exact confirm_payment_eq_notFound sample c2 hv hnone

set_option maxRecDepth 200000 in
/-- C3 witness: one confirmed 1-ticket payment; the sweep blocks run before
and after the confirm block, the confirm allocates the single batch and
removes the record, and a second confirm by another user finds nothing. -/
theorem C3_exactly_one_allocation_witness :
    runRace takeSampler gwConfirmAll ⟨⟨[], [], [⟨7, "R1", 1, 500⟩]⟩, []⟩
        [⟨7, "R1", 1, 500⟩] [⟨7, "R1", 1, 500⟩] 7 "R1"
      = confirm_payment takeSampler gwConfirmAll ⟨⟨[], [], [⟨7, "R1", 1, 500⟩]⟩, []⟩ 7 "R1" ∧
    confirm_payment takeSampler gwConfirmAll ⟨⟨[], [], [⟨7, "R1", 1, 500⟩]⟩, []⟩ 7 "R1"
      = (.assigned [1], ⟨⟨[], [⟨7, 1, "R1"⟩], []⟩, [(7, [1])]⟩) ∧
    ([1] : List Nat).length = 1 ∧
    confirm_payment takeSampler gwConfirmAll
        (confirm_payment takeSampler gwConfirmAll
          ⟨⟨[], [], [⟨7, "R1", 1, 500⟩]⟩, []⟩ 7 "R1").2 9 "R1"
      = (.referenceNotFound,
         (confirm_payment takeSampler gwConfirmAll
           ⟨⟨[], [], [⟨7, "R1", 1, 500⟩]⟩, []⟩ 7 "R1").2) ∧
    check_payments gwConfirmAll
        (confirm_payment takeSampler gwConfirmAll
          ⟨⟨[], [], [⟨7, "R1", 1, 500⟩]⟩, []⟩ 7 "R1").2
      = (confirm_payment takeSampler gwConfirmAll
          ⟨⟨[], [], [⟨7, "R1", 1, 500⟩]⟩, []⟩ 7 "R1").2 :=
  C3_exactly_one_allocation takeSampler takeSampler_ok gwConfirmAll
    ⟨⟨[], [], [⟨7, "R1", 1, 500⟩]⟩, []⟩ ⟨7, "R1", 1, 500⟩ 7 9
    [⟨7, "R1", 1, 500⟩] [⟨7, "R1", 1, 500⟩]
    (by decide) (by rfl) (by unfold pendingRefsUnique; decide) (by decide)

set_option maxRecDepth 100000 in
/-- C4: at a state holding a gateway-confirmed pending payment for two
tickets with the full universe available, one pass of the periodic sweep
changes nothing: no tickets are allocated, the pending record is not
removed, and no notification is produced — because the loop body
tuple-unpacks the projected dict into its key strings and verifies the
literal string "reference", which the placeholder guard rejects. The claim
says such a pass allocates exactly two tickets, removes the record and
notifies the user once. -/
theorem C4_sweep_never_resolves :
    (verify_payment gwConfirmAll "R1").1 = true ∧
    2 ≤ (availableNumbers ⟨[], [], [⟨7, "R1", 2, 1000⟩]⟩).length ∧
    check_payments gwConfirmAll ⟨⟨[], [], [⟨7, "R1", 2, 1000⟩]⟩, []⟩
      = ⟨⟨[], [], [⟨7, "R1", 2, 1000⟩]⟩, []⟩ :=
  ⟨by decide, by decide, check_payments_id gwConfirmAll _⟩

/-- C5 (amended): after every sequence of operations from the empty store
(user upserts, pending-payment creation and removal, allocations), the
allocated ticket numbers are pairwise distinct, each lies in `[1, 1000]`
(the hard-coded universe, equal to `[1, MAX_TICKETS]` only under the
default configuration), and the total number of ticket records never
exceeds 1000. -/
theorem C5_store_invariant (sample : List Nat → Nat → List Nat)
    (hs : SamplerOK sample) (ops : List DbOp) :
    (∀ x ∈ existingNumbers (runOps sample ops), 1 ≤ x ∧ x ≤ 1000) ∧
    (existingNumbers (runOps sample ops)).Nodup ∧
    (runOps sample ops).tickets.length ≤ 1000 := by
  obtain ⟨hb, hnd⟩ := runOps_ticketNumbersOK hs ops
  refine ⟨hb, hnd, ?_⟩
  have hlen := nodup_le_1000 hnd hb
  simpa [existingNumbers] using hlen

set_option maxRecDepth 100000 in
/-- C5 witness: the invariant instantiated at a single 2-ticket allocation
with the take-first sampler. -/
theorem C5_store_invariant_witness :
    SamplerOK takeSampler ∧
    ((∀ x ∈ existingNumbers (runOps takeSampler [DbOp.assignTickets 7 2 "R1"]),
        1 ≤ x ∧ x ≤ 1000) ∧
     (existingNumbers (runOps takeSampler [DbOp.assignTickets 7 2 "R1"])).Nodup ∧
     (runOps takeSampler [DbOp.assignTickets 7 2 "R1"]).tickets.length ≤ 1000) :=
  ⟨takeSampler_ok, C5_store_invariant takeSampler takeSampler_ok [DbOp.assignTickets 7 2 "R1"]⟩

set_option maxRecDepth 100000 in
/-- C5 counterexample: with the supply configured as `MAX_TICKETS = 3`, a
single 4-ticket allocation from the empty store yields 4 ticket records —
more than `MAX_TICKETS` — with the number 4 outside `[1, MAX_TICKETS]`:
the store invariant of the claim fails for non-default configurations. -/
theorem C5_counterexample :
    raffleBotMaxTickets (some 3) = 3 ∧
    ¬ ((runOps takeSampler [DbOp.assignTickets 7 4 "R1"]).tickets.length
        ≤ raffleBotMaxTickets (some 3)) ∧
    ¬ (∀ x ∈ existingNumbers (runOps takeSampler [DbOp.assignTickets 7 4 "R1"]),
        x ≤ raffleBotMaxTickets (some 3)) :=
  ⟨rfl, by decide, by decide⟩

/-- C6 (amended): actual resolution happens only through the user-initiated
confirm path (the sweep never resolves); it creates exactly `ticket_count`
ticket records, each sharing the reference of the pending payment and
carrying the user id of the confirming caller — which equals the userId
stored in the pending record only when the buyer confirms their own
payment. -/
theorem C6_tickets_carry_caller_id (sample : List Nat → Nat → List Nat)
    (hs : SamplerOK sample) (gw : String → GatewayOutcome) (st : BotState)
    (c : Nat) (p : PendingPayment)
    (hv : (verify_payment gw p.reference).1 = true)
    (hfind : get_pending_payment_by_reference st.db p.reference = some p)
    (hle : p.ticket_count ≤ (availableNumbers st.db).length) :
    (confirm_payment sample gw st c p.reference).2.db.tickets
      = st.db.tickets ++ (sample (availableNumbers st.db) p.ticket_count).map
          (fun n => Ticket.mk c n p.reference) ∧
    (sample (availableNumbers st.db) p.ticket_count).length = p.ticket_count := by
  constructor
  · rw [confirm_payment_eq_success sample c hv hfind hle]
  · exact (hs _ _ (nodup_availableNumbers st.db) hle).1

set_option maxRecDepth 100000 in
/-- C6 witness: the buyer confirms their own 2-ticket payment; both created
records carry the buyer id 5 and the reference. -/
theorem C6_tickets_carry_caller_id_witness :
    (confirm_payment takeSampler gwConfirmAll
        ⟨⟨[], [], [⟨5, "R2", 2, 1000⟩]⟩, []⟩ 5 "R2").2.db.tickets
      = [] ++ ([1, 2] : List Nat).map (fun n => Ticket.mk 5 n "R2") ∧
    ([1, 2] : List Nat).length = 2 :=
  C6_tickets_carry_caller_id takeSampler takeSampler_ok gwConfirmAll
    ⟨⟨[], [], [⟨5, "R2", 2, 1000⟩]⟩, []⟩ 5 ⟨5, "R2", 2, 1000⟩
    (by decide) (by rfl) (by decide)

set_option maxRecDepth 100000 in
/-- C6 counterexample: the pending payment stores userId 5, but user 9
confirms it; the created ticket record carries 9, not the stored 5 — the
claim as stated fails on the confirm path. -/
theorem C6_counterexample :
    (confirm_payment takeSampler gwConfirmAll
        ⟨⟨[], [], [⟨5, "R1", 1, 500⟩]⟩, []⟩ 9 "R1").2.db.tickets
      = [⟨9, 1, "R1"⟩] ∧
    get_pending_payment_by_reference ⟨[], [], [⟨5, "R1", 1, 500⟩]⟩ "R1"
      = some ⟨5, "R1", 1, 500⟩ ∧
    (9 : Nat) ≠ 5 :=
  ⟨by rfl, by rfl, by decide⟩

/-- C7: when the gateway does not report a pending reference as confirmed,
a resolve attempt on either path changes no state: the sweep pass is the
identity and the user-initiated confirm returns the not-confirmed message
with the state unchanged — no ticket is allocated, no pending record is
touched. -/
theorem C7_unconfirmed_no_state_change (sample : List Nat → Nat → List Nat)
    (gw : String → GatewayOutcome) (st : BotState) (c : Nat) (r : String)
    (hv : (verify_payment gw r).1 = false) :
    check_payments gw st = st ∧
    confirm_payment sample gw st c r = (.notConfirmed, st) :=
  ⟨check_payments_id gw st, confirm_payment_eq_notConfirmed sample st c hv⟩

/-- C7 witness: a network-failing gateway and one pending payment; both
paths leave the state untouched. -/
theorem C7_unconfirmed_no_state_change_witness :
    check_payments gwNetworkDown ⟨⟨[], [], [⟨7, "R1", 1, 500⟩]⟩, []⟩
      = ⟨⟨[], [], [⟨7, "R1", 1, 500⟩]⟩, []⟩ ∧
    confirm_payment takeSampler gwNetworkDown ⟨⟨[], [], [⟨7, "R1", 1, 500⟩]⟩, []⟩ 7 "R1"
      = (.notConfirmed, ⟨⟨[], [], [⟨7, "R1", 1, 500⟩]⟩, []⟩) :=
  C7_unconfirmed_no_state_change takeSampler gwNetworkDown
    ⟨⟨[], [], [⟨7, "R1", 1, 500⟩]⟩, []⟩ 7 "R1" (by decide)

/-- C8: `verify_payment` returns true only when the gateway definitively
reports success — an HTTP 200 response whose body status is truthy and
whose transaction status is the string "success"; every other outcome
(placeholder reference, non-200 status, SSL or network or request failure
after retries, unparseable body) yields false rather than an exception,
and on a false result both resolve paths change no state. -/
theorem C8_verify_conservative (sample : List Nat → Nat → List Nat)
    (gw : String → GatewayOutcome) (r : String) (st : BotState) (c : Nat) :
    ((verify_payment gw r).1 = true → gw r = .httpResp 200 true "success") ∧
    ((verify_payment gw r).1 = false →
      check_payments gw st = st ∧
      confirm_payment sample gw st c r = (.notConfirmed, st)) :=
  ⟨verify_payment_true_shape,
   fun hv => ⟨check_payments_id gw st, confirm_payment_eq_notConfirmed sample st c hv⟩⟩

/-- C8 witness: the confirming gateway yields a definitive-success shape
for "R1"; the network-failing gateway yields false and both resolve paths
leave a pending-payment state unchanged. -/
theorem C8_verify_conservative_witness :
    gwConfirmAll "R1" = .httpResp 200 true "success" ∧
    (check_payments gwNetworkDown ⟨⟨[], [], [⟨8, "R2", 1, 500⟩]⟩, []⟩
        = ⟨⟨[], [], [⟨8, "R2", 1, 500⟩]⟩, []⟩ ∧
     confirm_payment takeSampler gwNetworkDown ⟨⟨[], [], [⟨8, "R2", 1, 500⟩]⟩, []⟩ 8 "R2"
        = (.notConfirmed, ⟨⟨[], [], [⟨8, "R2", 1, 500⟩]⟩, []⟩)) :=
  ⟨(C8_verify_conservative takeSampler gwConfirmAll "R1" ⟨dbEmpty, []⟩ 1).1 (by decide),
   (C8_verify_conservative takeSampler gwNetworkDown "R2"
      ⟨⟨[], [], [⟨8, "R2", 1, 500⟩]⟩, []⟩ 8).2 (by decide)⟩

/-- C9: creating a pending payment whose reference already exists fails
against the unique index and persists nothing — the pending store is
returned unchanged, and the store invariant of at most one pending payment
per reference is preserved by every create. -/
theorem C9_duplicate_reference_rejected (s : DBState) (uid : Nat) (r : String)
    (cnt amt : Nat) :
    ((∃ p ∈ s.pending, p.reference = r) →
      add_pending_payment s uid r cnt amt = (false, s)) ∧
    (pendingRefsUnique s → pendingRefsUnique (add_pending_payment s uid r cnt amt).2) := by
  constructor
  · rintro ⟨p, hp, hr⟩
    have hany : s.pending.any (fun q => q.reference == r) = true :=
      List.any_eq_true.mpr ⟨p, hp, beq_iff_eq.mpr hr⟩
    unfold add_pending_payment
    rw [if_pos hany]
  · intro hu
    unfold add_pending_payment
    by_cases hany : s.pending.any (fun q => q.reference == r) = true
    · rw [if_pos hany]
      exact hu
    · rw [if_neg hany]
      unfold pendingRefsUnique at hu ⊢
      simp only [List.map_append, List.map_cons, List.map_nil]
      rw [List.nodup_append]
      refine ⟨hu, List.nodup_singleton r, ?_⟩
      intro x hx hx2
      rw [List.mem_singleton] at hx2
      subst hx2
      rw [List.mem_map] at hx
      obtain ⟨q, hq, hqr⟩ := hx
      rw [List.any_eq_true] at hany
      exact hany ⟨q, hq, beq_iff_eq.mpr hqr⟩

/-- C9 witness: a second create for the already-present reference "R1" is
rejected with the store unchanged, and uniqueness of references is kept. -/
theorem C9_duplicate_reference_rejected_witness :
    add_pending_payment ⟨[], [], [⟨5, "R1", 1, 500⟩]⟩ 9 "R1" 2 1000
      = (false, ⟨[], [], [⟨5, "R1", 1, 500⟩]⟩) ∧
    pendingRefsUnique (add_pending_payment ⟨[], [], [⟨5, "R1", 1, 500⟩]⟩ 9 "R1" 2 1000).2 :=
  ⟨(C9_duplicate_reference_rejected ⟨[], [], [⟨5, "R1", 1, 500⟩]⟩ 9 "R1" 2 1000).1
     ⟨⟨5, "R1", 1, 500⟩, by simp, rfl⟩,
   (C9_duplicate_reference_rejected ⟨[], [], [⟨5, "R1", 1, 500⟩]⟩ 9 "R1" 2 1000).2
     (by unfold pendingRefsUnique; decide)⟩

/-- C10: for every reference that is empty or whose stripped, lowered form
is one of the placeholder strings "reference", "<reference>", "ref",
`verify_payment` returns false immediately and issues no request to the
gateway. -/
theorem C10_placeholder_guard (gw : String → GatewayOutcome) (r : String)
    (h : r = "" ∨ pyLower (pyStrip r) ∈ ["reference", "<reference>", "ref"]) :
    verify_payment gw r = (false, []) := by
  apply verify_payment_placeholder
  unfold isPlaceholderReference
  rcases h with h | h
  · subst h
    rfl
  · have hmem : pyLower (pyStrip r) ∈ placeholderReferences := by
      unfold placeholderReferences
      simp only [List.mem_cons, List.mem_singleton] at h ⊢
      tauto
    have hc : placeholderReferences.contains (pyLower (pyStrip r)) = true :=
      List.elem_iff.mpr hmem
    rw [hc]
    exact Bool.or_true _

/-- C10 witness: the reference "  REF  " strips and lowers to the
placeholder "ref", so no gateway request is made and false is returned. -/
theorem C10_placeholder_guard_witness :
    verify_payment gwConfirmAll "  REF  " = (false, []) :=
  C10_placeholder_guard gwConfirmAll "  REF  " (Or.inr (by decide))
